import Mathlib

/-
Verification of the session-to-container lifecycle manager.

This file gives a shallow embedding of the core of the repository:
the port allocator (routes/project.py, find_available_port), the
Sandbox protocol (sandbox.py: attach_to_existing, stop, run_code,
write_file, read_file, list_files) and the SessionManager registry
(session_manager.py: get_or_create, remove).

The container runtime (docker) is modelled as explicit state: a map
from container names to container records; runtime calls that can
raise are modelled with explicit error results.  Strings that are
manipulated character by character (paths) are modelled as lists of
characters; file contents are modelled as the list of bytes of their
UTF-8 encoding.
-/

/-- Paths and other character-indexed strings are lists of characters. -/
abbrev Chars := List Char

/-- The UTF-8 bytes of a string, as natural numbers.  write_file encodes
its content argument with this encoding before transfer. -/
def strBytes (s : String) : List Nat := s.toUTF8.toList.map (fun b => b.toNat)

/-! ## Port allocator (routes/project.py, find_available_port)

The source scans `range(start_port, end_port)` — a half-open range —
binding a transient test socket at each port.  The OS-level "is this
port free" probe is modelled as an oracle predicate `free`. -/

/-- Scan `n` consecutive ports starting at `p`, returning the first one
the oracle reports free. -/
def findAvailablePortAux (free : Nat → Bool) : Nat → Nat → Option Nat
  | _, 0 => none
  | p, n + 1 => if free p then some p else findAvailablePortAux free (p + 1) n

/-- find_available_port(start_port, end_port): sequential scan of the
half-open range; `none` models the RuntimeError raised when no port in
the scanned range is free. -/
def find_available_port (free : Nat → Bool) (start_port end_port : Nat) : Option Nat :=
  findAvailablePortAux free start_port (end_port - start_port)

/-- Port allocation as performed by one create_project call: the
frontend port from find_available_port(8000, 8500), and, when a backend
language is configured, the backend port from
find_available_port(8500, 9000), probing the same host port state. -/
def allocate_project_ports (free : Nat → Bool) (hasBackend : Bool) :
    Option (Nat × Option Nat) :=
  match find_available_port free 8000 8500 with
  | none => none
  | some f =>
    if hasBackend then
      match find_available_port free 8500 9000 with
      | none => none
      | some b => some (f, some b)
    else
      some (f, none)

theorem findAvailablePortAux_sound (free : Nat → Bool) :
    ∀ (n p q : Nat), findAvailablePortAux free p n = some q →
      p ≤ q ∧ q < p + n ∧ free q = true ∧ (∀ r, p ≤ r → r < q → free r = false) := by
  intro n
  induction n with
  | zero => intro p q h; simp [findAvailablePortAux] at h
  | succ n ih =>
    intro p q h
    by_cases hf : free p
    · simp [findAvailablePortAux, hf] at h
      subst h
      refine ⟨Nat.le_refl _, by omega, hf, ?_⟩
      intro r h1 h2; omega
    · simp [findAvailablePortAux, hf] at h
      obtain ⟨h1, h2, h3, h4⟩ := ih (p + 1) q h
      refine ⟨by omega, by omega, h3, ?_⟩
      intro r hr1 hr2
      rcases Nat.eq_or_lt_of_le hr1 with hr | hr
      · simpa [← hr] using hf
      · exact h4 r hr hr2

theorem find_available_port_sound (free : Nat → Bool) (start_port end_port q : Nat)
    (h : find_available_port free start_port end_port = some q) :
    start_port ≤ q ∧ q < end_port ∧ free q = true ∧
      (∀ r, start_port ≤ r → r < q → free r = false) := by
  have hn : end_port - start_port ≠ 0 := by
    intro h0
    simp [find_available_port, h0, findAvailablePortAux] at h
  obtain ⟨h1, h2, h3, h4⟩ := findAvailablePortAux_sound free _ _ _ h
  exact ⟨h1, by omega, h3, h4⟩

/-- C3, counterexample: the scanned range is half-open, not inclusive.
With only the end endpoint 8001 of the request (8000, 8001) free, the
allocator fails instead of returning 8001: the end endpoint is never
allocatable, refuting "both endpoints allocatable". -/
theorem C3_counterexample :
    (fun p => p == 8001) 8001 = true ∧
      find_available_port (fun p => p == 8001) 8000 8001 = none := by
  constructor <;> rfl

/-- C3, amended: the port allocator scans the requested range
sequentially (first fit) and any normally returned port lies in the
half-open range [start_port, end_port) — the start endpoint is
allocatable, the end endpoint is excluded; and one provisioning call
that allocates both a frontend and a backend port always returns two
distinct ports. -/
theorem C3_port_allocator (free : Nat → Bool) (start_port end_port q : Nat)
    (h : find_available_port free start_port end_port = some q) :
    (start_port ≤ q ∧ q < end_port ∧ free q = true ∧
      (∀ r, start_port ≤ r → r < q → free r = false)) ∧
    (∀ (free2 : Nat → Bool) (f b : Nat),
      allocate_project_ports free2 true = some (f, some b) → f ≠ b) := by
  refine ⟨find_available_port_sound free start_port end_port q h, ?_⟩
  intro free2 f b hab
  unfold allocate_project_ports at hab
  cases hf : find_available_port free2 8000 8500 with
  | none => simp [hf] at hab
  | some f0 =>
    simp [hf] at hab
    cases hb : find_available_port free2 8500 9000 with
    | none => simp [hb] at hab
    | some b0 =>
      simp [hb] at hab
      obtain ⟨hef, heb⟩ := hab
      obtain ⟨_, hf2, _, _⟩ := find_available_port_sound free2 8000 8500 f0 hf
      obtain ⟨hb1, _, _, _⟩ := find_available_port_sound free2 8500 9000 b0 hb
      omega

/-- C3 witness: with every port free, the provisioning call returns
frontend port 8000 and backend port 8500, inside the half-open ranges. -/
theorem C3_port_allocator_witness :
    (8000 ≤ 8000 ∧ 8000 < 8500 ∧ (fun _ => true) 8000 = true ∧
      (∀ r, 8000 ≤ r → r < 8000 → (fun _ => true) r = false)) ∧
    (∀ (free2 : Nat → Bool) (f b : Nat),
      allocate_project_ports free2 true = some (f, some b) → f ≠ b) :=
  C3_port_allocator (fun _ => true) 8000 8500 8000 rfl


/-! ## Path handling (sandbox.py)

write_file and read_file normalize their path argument: an absolute
path (leading slash) is used verbatim, a relative path is prefixed
with the sandbox working directory.  write_file then splits the full
path with os.path.dirname / os.path.basename.  These helpers reproduce
the posixpath semantics of dirname and basename on character lists. -/

/-- os.path.basename: everything after the last slash. -/
def basenameP (p : Chars) : Chars :=
  (p.reverse.takeWhile (fun c => c != '/')).reverse

/-- The head part p[:i] where i is just past the last slash (empty when
there is no slash); trailing slashes are kept, as in posixpath. -/
def headPart (p : Chars) : Chars :=
  (p.reverse.dropWhile (fun c => c != '/')).reverse

/-- rstrip of slashes: drop trailing slashes. -/
def rstripSlashes (p : Chars) : Chars :=
  (p.reverse.dropWhile (fun c => c == '/')).reverse

/-- os.path.dirname: the head part, with trailing slashes stripped
unless the head is empty or consists only of slashes. -/
def dirnameP (p : Chars) : Chars :=
  if headPart p = [] then headPart p
  else if (headPart p).all (fun c => c == '/') then headPart p
  else rstripSlashes (headPart p)

/-- Posix join of a directory and an entry name, as performed by the
runtime when extracting an archive member into a destination
directory. -/
def joinPath (d n : Chars) : Chars :=
  if d.getLast? = some '/' then d ++ n else d ++ '/' :: n

/-- Path normalization shared by write_file and read_file: absolute
paths verbatim, relative paths resolved against the working
directory (f-string concatenation with a slash). -/
def normalizePath (workdir path : Chars) : Chars :=
  if path.head? = some '/' then path else workdir ++ '/' :: path

theorem takeWhile_append_stop (l1 zs : Chars) (h : '/' ∉ l1) :
    (l1 ++ '/' :: zs).takeWhile (fun c => c != '/') = l1 := by
  induction l1 with
  | nil => simp [List.takeWhile_cons]
  | cons a l ih =>
    have ha : (a != '/') = true := by
      refine bne_iff_ne.mpr ?_
      intro he; exact h (he ▸ List.mem_cons_self a l)
    have hl : '/' ∉ l := fun hm => h (List.mem_cons_of_mem a hm)
    rw [List.cons_append, List.takeWhile_cons, ha]
    simp [ih hl]

theorem dropWhile_append_stop (l1 zs : Chars) (h : '/' ∉ l1) :
    (l1 ++ '/' :: zs).dropWhile (fun c => c != '/') = '/' :: zs := by
  induction l1 with
  | nil => simp [List.dropWhile_cons]
  | cons a l ih =>
    have ha : (a != '/') = true := by
      refine bne_iff_ne.mpr ?_
      intro he; exact h (he ▸ List.mem_cons_self a l)
    have hl : '/' ∉ l := fun hm => h (List.mem_cons_of_mem a hm)
    rw [List.cons_append, List.dropWhile_cons, ha]
    simp [ih hl]

theorem basenameP_split (xs ys : Chars) (hys : '/' ∉ ys) :
    basenameP (xs ++ '/' :: ys) = ys := by
  have hrev : '/' ∉ ys.reverse := by simpa using hys
  have hr : (xs ++ '/' :: ys).reverse = ys.reverse ++ '/' :: xs.reverse := by
    simp
  rw [basenameP, hr, takeWhile_append_stop _ _ hrev, List.reverse_reverse]

theorem headPart_split (xs ys : Chars) (hys : '/' ∉ ys) :
    headPart (xs ++ '/' :: ys) = xs ++ ['/'] := by
  have hrev : '/' ∉ ys.reverse := by simpa using hys
  have hr : (xs ++ '/' :: ys).reverse = ys.reverse ++ '/' :: xs.reverse := by
    simp
  rw [headPart, hr, dropWhile_append_stop _ _ hrev]
  simp

theorem dirnameP_split (xs ys : Chars) (hys : '/' ∉ ys) :
    dirnameP (xs ++ '/' :: ys) =
      if (xs ++ ['/']).all (fun c => c == '/') then xs ++ ['/']
      else rstripSlashes (xs ++ ['/']) := by
  rw [dirnameP, headPart_split xs ys hys]
  have hne : ¬(xs ++ ['/'] = ([] : Chars)) := by simp
  rw [if_neg hne]

theorem joinPath_of_last_slash (d n : Chars) (h : d.getLast? = some '/') :
    joinPath d n = d ++ n := by
  unfold joinPath
  rw [if_pos h]

theorem joinPath_of_last_ne (d n : Chars) (h : d.getLast? ≠ some '/') :
    joinPath d n = d ++ '/' :: n := by
  unfold joinPath
  rw [if_neg h]

theorem rstripSlashes_concat_slash (zs : Chars) (z : Char) (hz : z ≠ '/') :
    rstripSlashes ((zs ++ [z]) ++ ['/']) = zs ++ [z] := by
  rw [rstripSlashes]
  have h1 : ((zs ++ [z]) ++ ['/']).reverse = '/' :: z :: zs.reverse := by simp
  rw [h1, List.dropWhile_cons]
  have h2 : (('/' : Char) == '/') = true := by rfl
  rw [h2, List.dropWhile_cons]
  have h3 : (z == '/') = false := by
    refine beq_eq_false_iff_ne.mpr hz
  rw [h3]
  simp

/-- Splitting a path at its last slash and rejoining dirname and
basename reproduces the path, provided the segment after the last
slash contains no slash and the part before it is either all slashes
or ends in a non-slash character. -/
theorem joinPath_dirnameP_basenameP (xs ys : Chars) (hys : '/' ∉ ys)
    (hxs : xs.all (fun c => c == '/') = true ∨ (xs ≠ [] ∧ xs.getLast? ≠ some '/')) :
    joinPath (dirnameP (xs ++ '/' :: ys)) (basenameP (xs ++ '/' :: ys)) = xs ++ '/' :: ys := by
  rw [basenameP_split xs ys hys, dirnameP_split xs ys hys]
  rcases hxs with hall | ⟨hne, hlast⟩
  · have hall2 : (xs ++ ['/']).all (fun c => c == '/') = true := by
      rw [List.all_append, hall]
      rfl
    rw [if_pos hall2, joinPath_of_last_slash _ _ (List.getLast?_concat xs)]
    simp
  · obtain ⟨zs, z, hz⟩ := (List.eq_nil_or_concat xs).resolve_left hne
    rw [List.concat_eq_append] at hz
    have hzslash : z ≠ '/' := by
      intro he
      apply hlast
      rw [hz, List.getLast?_concat, he]
    subst hz
    have hzb : (z == '/') = false := beq_eq_false_iff_ne.mpr hzslash
    have hnotall : ((zs ++ [z] ++ ['/']).all (fun c => c == '/')) = false := by
      rw [List.all_append, List.all_append, List.all_cons, List.all_nil, hzb]
      simp
    have hcond : ¬(((zs ++ [z] ++ ['/']).all fun c => c == '/') = true) := by
      rw [hnotall]
      simp
    have hlast2 : (zs ++ [z]).getLast? ≠ some '/' := by
      rw [List.getLast?_concat]
      intro he
      exact hzslash (by injection he)
    rw [if_neg hcond, rstripSlashes_concat_slash zs z hzslash,
      joinPath_of_last_ne _ _ hlast2]

/-! ## Container runtime and filesystem model

The docker collaborator is modelled as explicit state.  Each container
record carries its current status, the status it will report on a
reload shortly after a start (a started container may die immediately,
so this is not forced to be "running"), and two fault flags modelling
runtime calls that raise: `probeFails` makes reload raise a generic
API/transport exception, `startFails` makes start raise one. -/

structure ContainerInfo where
  status : String
  statusAfterStart : String
  probeFails : Bool
  startFails : Bool
deriving DecidableEq

structure RT where
  containers : List (String × ContainerInfo)
deriving DecidableEq

/-- client.containers.get: resolve a container by name, none when the
runtime raises docker NotFound. -/
def RT.findC (rt : RT) (n : String) : Option ContainerInfo :=
  (rt.containers.find? (fun e => e.1 == n)).map (fun e => e.2)

def RT.setC (rt : RT) (n : String) (ci : ContainerInfo) : RT :=
  ⟨rt.containers.map (fun e => if e.1 == n then (e.1, ci) else e)⟩

def RT.removeC (rt : RT) (n : String) : RT :=
  ⟨rt.containers.filter (fun e => e.1 != n)⟩

/-- In-container filesystem: a map from absolute file paths to the byte
contents of the file at that path. -/
structure FS where
  entries : List (Chars × List Nat)

def FS.get (fs : FS) (k : Chars) : Option (List Nat) :=
  (fs.entries.find? (fun e => e.1 == k)).map (fun e => e.2)

def FS.put (fs : FS) (k : Chars) (v : List Nat) : FS :=
  ⟨(k, v) :: fs.entries⟩

/-- container.put_archive(dest, tar): extracting a single-entry archive
whose member is named `name` with contents `data` places the bytes at
dest joined with name. -/
def putArchive (fs : FS) (dest : Chars) (name : Chars) (data : List Nat) : FS :=
  fs.put (joinPath dest name) data

theorem FS.get_put (fs : FS) (k : Chars) (v : List Nat) :
    (fs.put k v).get k = some v := by
  simp [FS.get, FS.put, List.find?]

/-! ## Sandbox (sandbox.py)

The Sandbox owns at most one container reference and a working
directory (default "/sandbox").  Creation-time configuration that no
modelled operation reads (image name, timeout hint, memory and cpu
limits, docker client, destroy_delay) is omitted. -/

structure Sandbox where
  container : Option String
  workdir : Chars
deriving DecidableEq

def defaultWorkdir : Chars := "/sandbox".toList

inductive SbErr
  | notStarted            -- RuntimeError: the sandbox has no bound container
  | unsupportedLanguage   -- ValueError raised by run_code on an unknown language
  | fileNotFound          -- FileNotFoundError raised by read_file on nonzero cat exit
deriving DecidableEq

/-- write_file: normalize the path, mkdir -p the parent directory
(the model filesystem has no permissions, so this always exits 0; the
source raises only on a nonzero mkdir exit), then build a single-entry
tar archive (name = basename, contents = the UTF-8 bytes of the
content) and hand it to put_archive targeted at the parent
directory. -/
def Sandbox.write_file (sb : Sandbox) (fs : FS) (path : Chars) (content : String) :
    Except SbErr FS :=
  match sb.container with
  | none => .error .notStarted
  | some _ =>
    let full_path := normalizePath sb.workdir path
    let dir_path := dirnameP full_path
    let data := strBytes content
    .ok (putArchive fs dir_path (basenameP full_path) data)

/-- read_file: normalize the path identically and run cat against it.
A present file means cat exits 0 and emits the stored bytes (which the
source then decodes as UTF-8 text); an absent file means a nonzero
exit, converted to FileNotFoundError. -/
def Sandbox.read_file (sb : Sandbox) (fs : FS) (path : Chars) : Except SbErr (List Nat) :=
  match sb.container with
  | none => .error .notStarted
  | some _ =>
    let full_path := normalizePath sb.workdir path
    match fs.get full_path with
    | some data => .ok data
    | none => .error .fileNotFound

theorem write_read_roundtrip (cn : String) (w : Chars) (fs : FS) (pw pr : Chars) (X : String)
    (hsame : normalizePath w pr = normalizePath w pw)
    (hjoin : joinPath (dirnameP (normalizePath w pw)) (basenameP (normalizePath w pw))
              = normalizePath w pw) :
    ((⟨some cn, w⟩ : Sandbox).write_file fs pw X).bind
        (fun fs1 => (⟨some cn, w⟩ : Sandbox).read_file fs1 pr) = .ok (strBytes X) := by
  simp only [Sandbox.write_file, Sandbox.read_file, Except.bind, putArchive]
  rw [hsame, hjoin, FS.get_put]

theorem normalizePath_rel (w p : Chars) (hrel : p.head? ≠ some '/') :
    normalizePath w p = w ++ '/' :: p := by
  rw [normalizePath, if_neg hrel]

theorem normalizePath_abs (w a : Chars) (habs : a.head? = some '/') :
    normalizePath w a = a := by
  rw [normalizePath, if_pos habs]

/-- C5: path normalization round-trip.  For every content X, write_file
on a relative path followed by read_file on the same relative path
returns the bytes of X byte-for-byte; the same holds for an absolute
path; the relative form of a path and the absolute form obtained by
prefixing the working directory normalize to the same full path, so
reading the absolute form after writing the relative form also returns
the bytes of X.  The path shape hypotheses require the final path
segment to contain no slash and the part before it to end in a
non-slash character (or be all slashes), which every slash-normalized
posix path satisfies. -/
theorem C5_path_roundtrip (cn : String) (w p a : Chars) (X : String) (fs : FS)
    (xs ys us vs : Chars)
    (hw : w.head? = some '/')
    (hrel : p.head? ≠ some '/')
    (habs : a.head? = some '/')
    (hdec : w ++ '/' :: p = xs ++ '/' :: ys)
    (hys : '/' ∉ ys)
    (hxs : xs.all (fun c => c == '/') = true ∨ (xs ≠ [] ∧ xs.getLast? ≠ some '/'))
    (hadec : a = us ++ '/' :: vs)
    (hvs : '/' ∉ vs)
    (hus : us.all (fun c => c == '/') = true ∨ (us ≠ [] ∧ us.getLast? ≠ some '/')) :
    (((⟨some cn, w⟩ : Sandbox).write_file fs p X).bind
        (fun fs1 => (⟨some cn, w⟩ : Sandbox).read_file fs1 p) = .ok (strBytes X)) ∧
    (((⟨some cn, w⟩ : Sandbox).write_file fs a X).bind
        (fun fs1 => (⟨some cn, w⟩ : Sandbox).read_file fs1 a) = .ok (strBytes X)) ∧
    normalizePath w p = normalizePath w (w ++ '/' :: p) ∧
    (((⟨some cn, w⟩ : Sandbox).write_file fs p X).bind
        (fun fs1 => (⟨some cn, w⟩ : Sandbox).read_file fs1 (w ++ '/' :: p)) = .ok (strBytes X)) := by
  have hwp_abs : (w ++ '/' :: p).head? = some '/' := by
    cases w with
    | nil => simp at hw
    | cons c w2 =>
      simp only [List.head?_cons] at hw
      simp [List.head?_cons, hw]
  have hnp : normalizePath w p = xs ++ '/' :: ys := by
    rw [normalizePath_rel w p hrel, hdec]
  have hjoin1 : joinPath (dirnameP (normalizePath w p)) (basenameP (normalizePath w p))
      = normalizePath w p := by
    rw [hnp]
    exact joinPath_dirnameP_basenameP xs ys hys hxs
  have hna : normalizePath w a = us ++ '/' :: vs := by
    rw [normalizePath_abs w a habs, hadec]
  have hjoin2 : joinPath (dirnameP (normalizePath w a)) (basenameP (normalizePath w a))
      = normalizePath w a := by
    rw [hna]
    exact joinPath_dirnameP_basenameP us vs hvs hus
  have hsame : normalizePath w (w ++ '/' :: p) = normalizePath w p := by
    rw [normalizePath_abs w _ hwp_abs, normalizePath_rel w p hrel]
  refine ⟨?_, ?_, ?_, ?_⟩
  · exact write_read_roundtrip cn w fs p p X rfl hjoin1
  · exact write_read_roundtrip cn w fs a a X rfl hjoin2
  · exact hsame.symm
  · exact write_read_roundtrip cn w fs p (w ++ '/' :: p) X hsame hjoin1

/-- C5 witness: writing "notes.txt" under working directory "/sandbox"
and reading it back (by its relative name) returns the written bytes. -/
theorem C5_path_roundtrip_witness :
    ((⟨some "c", "/sandbox".toList⟩ : Sandbox).write_file ⟨[]⟩ "notes.txt".toList "hello").bind
        (fun fs1 => (⟨some "c", "/sandbox".toList⟩ : Sandbox).read_file fs1 "notes.txt".toList)
      = .ok (strBytes "hello") :=
  (C5_path_roundtrip "c" "/sandbox".toList "notes.txt".toList "/abs/notes.txt".toList
    "hello" ⟨[]⟩ "/sandbox".toList "notes.txt".toList "/abs".toList "notes.txt".toList
    (by decide) (by decide) (by decide) (by decide) (by decide)
    (Or.inr ⟨by decide, by decide⟩) (by decide) (by decide)
    (Or.inr ⟨by decide, by decide⟩)).1

/-! ## Command execution (sandbox.py, run_code)

container.exec_run with demux=True returns a pair of optional byte
streams plus an exit code, or raises.  Output streams are modelled at
the decoded-text level (the protocol accepts the UTF-8 data-loss risk
for non-decodable output); the behavior of the runtime for a given
argv and working directory is an oracle supplied to run_code. -/

structure ExecOutput where
  stdout : Option String
  stderr : Option String
  exit_code : Nat
deriving DecidableEq

inductive ExecBehavior
  | ok : ExecOutput → ExecBehavior
  | raises : String → ExecBehavior   -- a runtime-level (transport/API) exception
deriving DecidableEq

structure RunResult where
  stdout : String
  stderr : String
  exit_code : Int
deriving DecidableEq

/-- Language dispatch of run_code: python/bash/sh map to their argv
form, everything else is rejected. -/
def langCmd (code language : String) : Option (List String) :=
  if language = "python" then some ["python", "-c", code]
  else if language = "bash" then some ["bash", "-c", code]
  else if language = "sh" then some ["sh", "-c", code]
  else none

/-- run_code: reject an unbound sandbox, then dispatch on language
(ValueError before any runtime call for an unsupported one), then
exec_run the argv in the sandbox working directory.  A runtime-level
exception is caught and downgraded to a structured result with empty
stdout, the exception text as stderr and the sentinel exit code -1.
The second component is the trace of exec_run calls issued; run_code
mutates neither the sandbox nor the registry. -/
def Sandbox.run_code (sb : Sandbox) (exec : List String → Chars → ExecBehavior)
    (code language : String) : Except SbErr RunResult × List (List String) :=
  match sb.container with
  | none => (.error .notStarted, [])
  | some _ =>
    match langCmd code language with
    | none => (.error .unsupportedLanguage, [])
    | some cmd =>
      match exec cmd sb.workdir with
      | .raises msg => (.ok ⟨"", msg, -1⟩, [cmd])
      | .ok out =>
        (.ok ⟨out.stdout.getD "", out.stderr.getD "", (out.exit_code : Int)⟩, [cmd])

/-- C4: on a bound sandbox with a supported language, a runtime-level
failure raised by exec_run is never propagated: run_code returns a
structured result with empty stdout, the failure text as stderr and
exit code -1; and a normally completing exec_run yields the program's
own exit code, a natural number, which is never the sentinel -1. -/
theorem C4_transport_failure_sentinel (sb : Sandbox) (cn : String)
    (exec : List String → Chars → ExecBehavior) (code language msg : String)
    (hc : sb.container = some cn)
    (hlang : language = "python" ∨ language = "bash" ∨ language = "sh")
    (hexec : ∀ c w, exec c w = .raises msg) :
    (sb.run_code exec code language).1 = .ok ⟨"", msg, -1⟩ ∧
    (∀ (out : ExecOutput) (exec2 : List String → Chars → ExecBehavior),
      (∀ c w, exec2 c w = .ok out) →
      (sb.run_code exec2 code language).1
          = .ok ⟨out.stdout.getD "", out.stderr.getD "", (out.exit_code : Int)⟩ ∧
        (out.exit_code : Int) ≠ -1) := by
  have hcmd : ∃ cmd, langCmd code language = some cmd := by
    rcases hlang with h | h | h
    · exact ⟨["python", "-c", code], by simp [langCmd, h]⟩
    · exact ⟨["bash", "-c", code], by simp [langCmd, h]⟩
    · exact ⟨["sh", "-c", code], by simp [langCmd, h]⟩
  obtain ⟨cmd, hcmd⟩ := hcmd
  constructor
  · simp [Sandbox.run_code, hc, hcmd, hexec]
  · intro out exec2 hexec2
    constructor
    · simp [Sandbox.run_code, hc, hcmd, hexec2]
    · omega

/-- C4 witness. -/
theorem C4_transport_failure_sentinel_witness :
    ((⟨some "c", "/sandbox".toList⟩ : Sandbox).run_code
        (fun _ _ => .raises "connection broken") "print(1)" "python").1
      = .ok ⟨"", "connection broken", -1⟩ :=
  (C4_transport_failure_sentinel ⟨some "c", "/sandbox".toList⟩ "c"
    (fun _ _ => .raises "connection broken") "print(1)" "python" "connection broken"
    rfl (Or.inl rfl) (fun _ _ => rfl)).1

/-- C6: on a bound sandbox, an execute call whose language is not one
of python/bash/sh fails with the local ValueError before any runtime
call: the result is the validation error and the trace of issued
exec_run calls is empty, so no registry or sandbox state is touched. -/
theorem C6_unsupported_language_rejected (sb : Sandbox) (cn : String)
    (exec : List String → Chars → ExecBehavior) (code language : String)
    (hc : sb.container = some cn)
    (h1 : language ≠ "python") (h2 : language ≠ "bash") (h3 : language ≠ "sh") :
    sb.run_code exec code language = (.error .unsupportedLanguage, []) := by
  simp [Sandbox.run_code, hc, langCmd, h1, h2, h3]

/-- C6 witness: execute("x", "cobol") is rejected with no runtime call. -/
theorem C6_unsupported_language_rejected_witness :
    (⟨some "c", "/sandbox".toList⟩ : Sandbox).run_code
        (fun _ _ => .ok ⟨some "out", none, 0⟩) "x" "cobol"
      = (.error .unsupportedLanguage, []) :=
  C6_unsupported_language_rejected ⟨some "c", "/sandbox".toList⟩ "c"
    (fun _ _ => .ok ⟨some "out", none, 0⟩) "x" "cobol"
    rfl (by decide) (by decide) (by decide)

/-! ## File listing (sandbox.py, list_files) -/

/-- list_files: default the path to the working directory, run
ls -1 path (modelled as an oracle giving the exit code and the decoded
combined output), and on nonzero exit return the empty list instead of
an error; on success split the stripped output into nonempty lines. -/
def Sandbox.list_files (sb : Sandbox) (exec : Chars → Nat × String) (path : Option Chars) :
    Except SbErr (List String) :=
  match sb.container with
  | none => .error .notStarted
  | some _ =>
    let p := match path with | none => sb.workdir | some q => q
    let r := exec p
    if r.1 ≠ 0 then .ok []
    else .ok ((r.2.trim.splitOn "\n").filter (fun f => f ≠ ""))

/-- C7: on a bound sandbox, a nonzero exit of the directory-listing
command yields the empty sequence, not an error; in particular a
nonexistent path (where ls exits nonzero) returns the empty sequence
and raises nothing. -/
theorem C7_listing_failure_empty (sb : Sandbox) (cn : String) (exec : Chars → Nat × String)
    (p : Chars) (hc : sb.container = some cn) (hfail : (exec p).1 ≠ 0) :
    sb.list_files exec (some p) = .ok [] := by
  simp [Sandbox.list_files, hc, hfail]

/-- C7 witness: listing "/does/not/exist" (ls exits 2) yields []. -/
theorem C7_listing_failure_empty_witness :
    (⟨some "c", "/sandbox".toList⟩ : Sandbox).list_files
        (fun _ => (2, "ls: cannot access")) (some "/does/not/exist".toList)
      = .ok [] :=
  C7_listing_failure_empty ⟨some "c", "/sandbox".toList⟩ "c"
    (fun _ => (2, "ls: cannot access")) "/does/not/exist".toList rfl (by decide)

/-! ## Teardown (sandbox.py, stop) -/

/-- Fault model for teardown: container.stop(timeout=1) and
container.remove(force=True) may each raise. -/
structure TeardownBehavior where
  stopRaises : Bool
  removeRaises : Bool
deriving DecidableEq

/-- stop: when a container is bound, optionally linger, then stop and
force-remove it.  The whole sequence is wrapped in try/except — a
teardown failure is only logged, never propagated (stop returns
normally in every case) — and the finally clause clears the local
container handle unconditionally. -/
def Sandbox.stop (sb : Sandbox) (rt : RT) (beh : TeardownBehavior) : Sandbox × RT :=
  match sb.container with
  | none => (sb, rt)
  | some cn =>
    if beh.stopRaises then ({sb with container := none}, rt)
    else
      let rt1 := match rt.findC cn with
        | some ci => rt.setC cn {ci with status := "exited"}
        | none => rt
      if beh.removeRaises then ({sb with container := none}, rt1)
      else ({sb with container := none}, rt1.removeC cn)

/-- C8: stop always clears the sandbox's local container handle, for
every runtime state and every combination of stop/remove failures;
stop is total (returns a state, never an error), so teardown failures
are not propagated to the caller. -/
theorem C8_stop_clears_handle (sb : Sandbox) (rt : RT) (beh : TeardownBehavior) :
    ((sb.stop rt beh).1).container = none := by
  cases hc : sb.container with
  | none =>
    simp [Sandbox.stop, hc]
  | some cn =>
    by_cases hs : beh.stopRaises <;> by_cases hr : beh.removeRaises <;>
      cases hf : rt.findC cn <;> simp [Sandbox.stop, hc, hs, hr, hf]

/-! ## Attaching to an existing container (sandbox.py, attach_to_existing) -/

inductive AttachErr
  | containerNotFound   -- docker NotFound, re-raised verbatim with context
  | runtimeFailure      -- any other exception, wrapped in RuntimeError
deriving DecidableEq

/-- attach_to_existing: resolve the container by name (NotFound when it
does not exist), reload its status, and when it is not running issue a
start, wait briefly and reload again.  The working directory is
recorded and an mkdir -p for it is issued (its exit code is only
logged).  Any exception from reload/start is wrapped in a
RuntimeError.  The post-start status is printed but never checked:
attach returns successfully whatever the second reload reports. -/
def Sandbox.attach_to_existing (sb : Sandbox) (rt : RT) (container_name : String)
    (workdir : Chars) : Except AttachErr (Sandbox × RT) :=
  match rt.findC container_name with
  | none => .error .containerNotFound
  | some ci =>
    if ci.probeFails then .error .runtimeFailure
    else if ci.status ≠ "running" then
      if ci.startFails then .error .runtimeFailure
      else
        let rt2 := rt.setC container_name {ci with status := ci.statusAfterStart}
        .ok ({sb with container := some container_name, workdir := workdir}, rt2)
    else
      .ok ({sb with container := some container_name, workdir := workdir}, rt)

/-- C2, counterexample: a container that is found in status "exited"
and still reports "exited" after the start (it dies again immediately)
is attached successfully — the code never checks the post-start
status, so a non-"running" post-start status is not a fatal attach
error. -/
theorem C2_counterexample :
    Sandbox.attach_to_existing ⟨none, "/sandbox".toList⟩
        ⟨[("c", ⟨"exited", "exited", false, false⟩)]⟩ "c" "/w".toList
      = .ok (⟨some "c", "/w".toList⟩, ⟨[("c", ⟨"exited", "exited", false, false⟩)]⟩) ∧
    ("exited" : String) ≠ "running" := by
  constructor
  · rfl
  · decide

/-- C2, amended: when the container is found but not running, a start
is issued (the runtime records the post-start status), but the attach
then succeeds regardless of that post-start status; attach fails only
when the container is missing (ContainerNotFound) or when a runtime
call raises during probe or start (RuntimeError), never because the
post-start status is not "running". -/
theorem C2_attach_start_no_poststart_check (sb : Sandbox) (rt : RT) (cn : String)
    (wd : Chars) (ci : ContainerInfo)
    (hfind : rt.findC cn = some ci)
    (hprobe : ci.probeFails = false)
    (hstart : ci.startFails = false) :
    (ci.status ≠ "running" →
      sb.attach_to_existing rt cn wd
        = .ok ({sb with container := some cn, workdir := wd},
               rt.setC cn {ci with status := ci.statusAfterStart})) ∧
    (ci.status = "running" →
      sb.attach_to_existing rt cn wd
        = .ok ({sb with container := some cn, workdir := wd}, rt)) ∧
    (∀ rt2 : RT, rt2.findC cn = none →
      sb.attach_to_existing rt2 cn wd = .error .containerNotFound) := by
  refine ⟨?_, ?_, ?_⟩
  · intro hs
    simp [Sandbox.attach_to_existing, hfind, hprobe, hstart, hs]
  · intro hs
    simp [Sandbox.attach_to_existing, hfind, hprobe, hs]
  · intro rt2 hn
    simp [Sandbox.attach_to_existing, hn]

/-- C2 witness: attaching to a stopped container that stays "created"
after its start still succeeds. -/
theorem C2_attach_start_no_poststart_check_witness :
    Sandbox.attach_to_existing ⟨none, "/sandbox".toList⟩
        ⟨[("k", ⟨"exited", "created", false, false⟩)]⟩ "k" "/w".toList
      = .ok (⟨some "k", "/w".toList⟩,
             RT.setC ⟨[("k", ⟨"exited", "created", false, false⟩)]⟩ "k"
               ⟨"created", "created", false, false⟩) :=
  (C2_attach_start_no_poststart_check ⟨none, "/sandbox".toList⟩
    ⟨[("k", ⟨"exited", "created", false, false⟩)]⟩ "k" "/w".toList
    ⟨"exited", "created", false, false⟩ rfl rfl rfl).1 (by decide)

/-! ## Session registry (session_manager.py)

The registry maps session ids to Sandboxes and guards the mapping with
a single threading.Lock.  That lock is NOT reentrant: a thread that
tries to acquire it while already holding it blocks forever.  The
model makes the lock explicit (`lockHeld`), and a blocked acquisition
is the `blocked` outcome, carrying the state left behind by the
blocked thread. -/

abbrev Sessions := List (String × Sandbox)

def lookupS (l : Sessions) (k : String) : Option Sandbox :=
  (l.find? (fun e => e.1 == k)).map (fun e => e.2)

def eraseS (l : Sessions) (k : String) : Sessions :=
  l.filter (fun e => e.1 != k)

/-- Python dict assignment: replace any entry for the key. -/
def insertS (l : Sessions) (k : String) (v : Sandbox) : Sessions :=
  (k, v) :: eraseS l k

structure SMState where
  sessions : Sessions
  lockHeld : Bool
deriving DecidableEq

/-- A project row joined from the sessions and projects tables; only
the fields get_or_create reads are modelled. -/
structure ProjectInfo where
  name : String
  container_name : Option String
  workdir_path : Option Chars

/-- The Project Directory Service: session id to project record. -/
abbrev DB := String → Option ProjectInfo

inductive SMErr
  | dbNotConnected          -- RuntimeError: no database handle
  | sessionNotFound         -- ValueError: session unknown or with no project
  | containerNotConfigured  -- ValueError: project with no container_name
  | attachFailed : AttachErr → SMErr
deriving DecidableEq

/-- Outcome of a get_or_create call.  ok carries the updated registry
state, runtime state and the returned sandbox; err is a raised
exception (the with-block releases the lock on the way out); blocked
is a call that never returns because it is deadlocked acquiring the
registry lock, carrying the registry and runtime state left in place. -/
inductive ResolveOutcome
  | ok : SMState → RT → Sandbox → ResolveOutcome
  | err : SMErr → ResolveOutcome
  | blocked : SMState → RT → ResolveOutcome
deriving DecidableEq

/-- get_or_create: under the registry lock, resolve the session.  On a
miss, consult the database (errors: no db handle, unknown session,
project with no container_name) and attach to the recorded container.
On a hit, probe the cached container; a docker NotFound, or any other
exception from the probe or the restart, evicts the entry and
re-resolves by a recursive call issued while the lock is still held —
threading.Lock is not reentrant, so that recursive acquisition blocks
forever.  `fuel` bounds the recursion depth for totality; every path
resolves within one recursive call. -/
def SessionManager.get_or_create (fuel : Nat) (db : Option DB) (rt : RT) (st : SMState)
    (session_id : String) : ResolveOutcome :=
  if st.lockHeld then .blocked st rt
  else
    let stL : SMState := {st with lockHeld := true}
    match lookupS stL.sessions session_id with
    | none =>
      match db with
      | none => .err .dbNotConnected
      | some dbf =>
        match dbf session_id with
        | none => .err .sessionNotFound
        | some project_info =>
          match project_info.container_name with
          | none => .err .containerNotConfigured
          | some container_name =>
            if container_name = "" then .err .containerNotConfigured
            else
              let workdir := match project_info.workdir_path with
                | none => defaultWorkdir
                | some w => if w = [] then defaultWorkdir else w
              let sandbox : Sandbox := ⟨none, defaultWorkdir⟩
              match sandbox.attach_to_existing rt container_name workdir with
              | .error e => .err (.attachFailed e)
              | .ok (sb2, rt2) =>
                .ok ⟨insertS stL.sessions session_id sb2, false⟩ rt2 sb2
    | some sandbox =>
      match sandbox.container with
      | none => .ok {stL with lockHeld := false} rt sandbox
      | some cn =>
        match rt.findC cn with
        | none =>
          let st2 : SMState := {stL with sessions := eraseS stL.sessions session_id}
          match fuel with
          | 0 => .blocked st2 rt
          | fuel2 + 1 => SessionManager.get_or_create fuel2 db rt st2 session_id
        | some ci =>
          if ci.probeFails then
            let st2 : SMState := {stL with sessions := eraseS stL.sessions session_id}
            match fuel with
            | 0 => .blocked st2 rt
            | fuel2 + 1 => SessionManager.get_or_create fuel2 db rt st2 session_id
          else if ci.status ≠ "running" then
            if ci.startFails then
              let st2 : SMState := {stL with sessions := eraseS stL.sessions session_id}
              match fuel with
              | 0 => .blocked st2 rt
              | fuel2 + 1 => SessionManager.get_or_create fuel2 db rt st2 session_id
            else
              let rt2 := rt.setC cn {ci with status := ci.statusAfterStart}
              .ok {stL with lockHeld := false} rt2 sandbox
          else .ok {stL with lockHeld := false} rt sandbox

/-- remove: under the registry lock, stop the session's sandbox and
delete the mapping entry; removing an absent session does nothing.
none models a call blocked on the lock. -/
def SessionManager.remove (st : SMState) (rt : RT) (beh : TeardownBehavior)
    (session_id : String) : Option (SMState × RT) :=
  if st.lockHeld then none
  else
    match lookupS st.sessions session_id with
    | none => some (st, rt)
    | some sandbox =>
      let r := sandbox.stop rt beh
      some ({st with sessions := eraseS st.sessions session_id}, r.2)

theorem lookupS_eraseS (l : Sessions) (k : String) : lookupS (eraseS l k) k = none := by
  induction l with
  | nil => rfl
  | cons e l ih =>
    by_cases he : e.1 = k
    · have hb : (e.1 != k) = false := by simp [he]
      simp only [eraseS, List.filter_cons, hb]
      exact ih
    · have hb : (e.1 != k) = true := by simp [he]
      have hb2 : (e.1 == k) = false := by simp [he]
      simp only [eraseS, lookupS, List.filter_cons, hb, if_true, List.find?_cons, hb2]
      exact ih

/-- C9: remove is idempotent.  Removing an absent session is a no-op
success (no error, registry mapping unchanged), and after any
successful remove, removing the same session again returns without
error and without changing the registry (in particular its size). -/
theorem C9_remove_idempotent (st : SMState) (rt : RT) (beh : TeardownBehavior)
    (session_id : String) (hl : st.lockHeld = false) :
    (lookupS st.sessions session_id = none →
      SessionManager.remove st rt beh session_id = some (st, rt)) ∧
    (∀ st1 rt1, SessionManager.remove st rt beh session_id = some (st1, rt1) →
      SessionManager.remove st1 rt1 beh session_id = some (st1, rt1)) := by
  constructor
  · intro habs
    simp [SessionManager.remove, hl, habs]
  · intro st1 rt1 h1
    unfold SessionManager.remove at h1
    rw [if_neg (by simp [hl])] at h1
    cases hlk : lookupS st.sessions session_id with
    | none =>
      rw [hlk] at h1
      simp only [Option.some.injEq, Prod.mk.injEq] at h1
      obtain ⟨h1a, h1b⟩ := h1
      subst h1a
      subst h1b
      simp [SessionManager.remove, hl, hlk]
    | some sb =>
      rw [hlk] at h1
      simp only [Option.some.injEq, Prod.mk.injEq] at h1
      obtain ⟨h1a, h1b⟩ := h1
      have hl1 : st1.lockHeld = false := by rw [← h1a]; exact hl
      have hlk1 : lookupS st1.sessions session_id = none := by
        rw [← h1a]
        exact lookupS_eraseS st.sessions session_id
      simp [SessionManager.remove, hl1, hlk1]

/-- C9 witness: removing an absent session from an empty registry twice
succeeds with no change. -/
theorem C9_remove_idempotent_witness :
    SessionManager.remove ⟨[], false⟩ ⟨[]⟩ ⟨false, false⟩ "s"
      = some (⟨[], false⟩, ⟨[]⟩) :=
  (C9_remove_idempotent ⟨[], false⟩ ⟨[]⟩ ⟨false, false⟩ "s" rfl).1 rfl

/-- C1: the claim says the next resolve for a session whose container
was deleted out of band either rebinds or surfaces a
ContainerNotFound/SessionNotFound error.  Evaluating get_or_create on
a registry caching session "s" bound to the deleted container "c",
with a project record pointing at the live container "d", shows what
the code actually does: it evicts the cache entry (the blocked state
carries an empty session map) and then recursively calls itself while
still holding the non-reentrant registry lock, blocking forever — it
neither rebinds nor raises. -/
theorem C1_self_healing_deadlock :
    SessionManager.get_or_create 5
        (some (fun sid => if sid = "s"
          then some ⟨"proj", some "d", some "/w".toList⟩ else none))
        ⟨[("d", ⟨"running", "running", false, false⟩)]⟩
        ⟨[("s", ⟨some "c", "/w".toList⟩)], false⟩ "s"
      = .blocked ⟨[], true⟩ ⟨[("d", ⟨"running", "running", false, false⟩)]⟩ := by
  rfl

/-- C10: the claim says any exception from the liveness probe — not
only docker NotFound — causes eviction and re-resolution from the
project record.  Evaluating get_or_create on a cached session whose
container probe raises a generic API error shows the eviction happens
(the blocked state carries an empty session map), but the re-resolution
deadlocks on the non-reentrant registry lock, so the session is never
re-resolved and the call never returns. -/
theorem C10_probe_exception_deadlock :
    SessionManager.get_or_create 5
        (some (fun _ => some ⟨"proj", some "c", some "/w".toList⟩))
        ⟨[("c", ⟨"running", "running", true, false⟩)]⟩
        ⟨[("s", ⟨some "c", "/w".toList⟩)], false⟩ "s"
      = .blocked ⟨[], true⟩ ⟨[("c", ⟨"running", "running", true, false⟩)]⟩ := by
  rfl
